import Mathlib

/-!
Shallow embedding of the asset-management backend's ledger core
(`src/backend/app/crud.py`, with the data model of
`src/backend/app/models.py` / `src/backend/app/schemas.py` and the
unique indexes declared in `migrations/versions/001_initial_schema.py`).

Conventions of the embedding:
* The relational store is a `DB` record of lists; a mutating crud
  function takes the `DB` and returns `Except LedgerError (DB × Asset)`.
  A raised Python exception inside a transaction rolls the transaction
  back, so an `Except.error` result carries no database: the caller's
  `DB` is unchanged, exactly like a rolled-back transaction.
* Python `ValueError` messages are classified into the error taxonomy
  the specification assigns them (NotFound / InvalidTransition /
  Conflict / Capacity / DuplicateKey); a database-level unique-index
  rejection at commit time is `integrity`.
* Dates are modelled as their ISO string rendering (`Option String`):
  the code only ever compares them for equality and interpolates
  `str(value)` into audit notes, both of which the rendering preserves.
* Python truthiness on strings and integers (`if serial_number:`,
  `if user_id:`, `x or default`) is modelled explicitly by the
  `strTruthyOpt` / `optNatTruthy` / `pyStrOr` helpers.
* `datetime.now` is passed in as an abstract tick `now : Nat`; the
  SQLAlchemy `onupdate=utcnow` hook fires exactly when a modified asset
  row is committed, so mutating operations stamp `updated_at := now`.
-/

namespace AssetMgmt

/-- Embeds `models.AssetType`. -/
inductive AssetType where
  | HARDWARE
  | SOFTWARE
deriving DecidableEq, Repr

/-- Embeds `models.AssetStatus`. -/
inductive AssetStatus where
  | IN_STOCK
  | ASSIGNED
  | IN_REPAIR
  | RETIRED
deriving DecidableEq, Repr

/-- Embeds `models.AssetCondition`. -/
inductive AssetCondition where
  | NEW
  | GOOD
  | FAIR
  | DAMAGED
deriving DecidableEq, Repr

/-- Embeds `models.AssetEventType`. -/
inductive AssetEventType where
  | CREATE
  | ASSIGN
  | RETURN
  | MOVE
  | UPDATE
  | REPAIR
  | RETIRE
deriving DecidableEq, Repr

/-- Error taxonomy of the spec (section 7); every crud raise site is a
Python `ValueError` whose message identifies one of these kinds, and a
unique-index rejection at `db.commit()` is an `integrity` error. -/
inductive LedgerError where
  | notFound (msg : String)
  | invalidTransition (msg : String)
  | conflict (msg : String)
  | capacity (msg : String)
  | duplicateKey (msg : String)
  | integrity (msg : String)
deriving DecidableEq, Repr

/-- Row of `models.User` (the fields the ledger core reads). -/
structure User where
  id : Nat
  name : String
  organization_id : Option Nat
deriving DecidableEq, Repr

/-- Row of `models.Location`. -/
structure Location where
  id : Nat
  name : String
deriving DecidableEq, Repr

/-- Row of `models.Asset` (with the `organization_id` column added by
migration `001_initial_schema.py`). -/
structure Asset where
  id : Nat
  asset_tag : String
  asset_type : AssetType
  category : Option String
  subscription : Option String
  manufacturer : Option String
  model : Option String
  serial_number : Option String
  purchase_date : Option String
  warranty_start : Option String
  warranty_end : Option String
  warranty_extended_months : Int
  renewal_date : Option String
  seats_total : Option Int
  seats_used : Option Int
  status : AssetStatus
  condition : AssetCondition
  owner_org : String
  location_id : Option Nat
  assigned_to_user_id : Option Nat
  notes : Option String
  created_at : Nat
  updated_at : Nat
  organization_id : Option Nat
deriving DecidableEq, Repr

/-- Row of `models.AssetEvent`. -/
structure AssetEvent where
  asset_id : Nat
  event_type : AssetEventType
  from_user_id : Option Nat
  to_user_id : Option Nat
  from_location_id : Option Nat
  to_location_id : Option Nat
  actor_user_id : Option Nat
  notes : Option String
deriving DecidableEq, Repr

/-- The relational store visible to the ledger core. -/
structure DB where
  assets : List Asset
  users : List User
  locations : List Location
  events : List AssetEvent
deriving DecidableEq, Repr

/-- Embeds `db.get(models.Asset, asset_id)`. -/
def dbGetAsset (db : DB) (asset_id : Nat) : Option Asset :=
  db.assets.find? (fun a => a.id == asset_id)

/-- Embeds `db.get(models.User, user_id)`. -/
def dbGetUser (db : DB) (user_id : Nat) : Option User :=
  db.users.find? (fun u => u.id == user_id)

/-- Commit of one modified asset row plus one appended event row,
inside the surrounding transaction. -/
def commitAsset (db : DB) (a : Asset) (ev : AssetEvent) : DB :=
  { db with
    assets := db.assets.map (fun x => if x.id == a.id then a else x),
    events := db.events ++ [ev] }

/-- Python truthiness of an optional string (`if s:`): `None` and the
empty string are falsy. -/
def strTruthyOpt : Option String → Bool
  | none => false
  | some s => s ≠ ""

/-- Python truthiness of an optional integer id (`if user_id:`):
`None` and `0` are falsy. -/
def optNatTruthy : Option Nat → Bool
  | none => false
  | some n => n ≠ 0

/-- Python `s or default` for an optional string: the default is used
when the string is `None` or empty. -/
def pyStrOr (o : Option String) (dflt : String) : String :=
  match o with
  | some s => if s = "" then dflt else s
  | none => dflt

/-- Display of the seat denominator: `{seats_total or '∞'}` renders the
local `seats_total` (already coalesced with `or 0`) as `∞` when zero. -/
def fmtSeatsTotal (t : Int) : String :=
  if t = 0 then "∞" else toString t

/-- Default ASSIGN note for software, from `assign_asset`:
`Assigned seat to {user.name} ({new_used}/{seats_total or '∞'} seats used)`. -/
def softwareAssignNote (userName : String) (newUsed total : Int) : String :=
  "Assigned seat to " ++ userName ++ " (" ++ toString newUsed ++ "/" ++
    fmtSeatsTotal total ++ " seats used)"

/-- RETURN note for software, from `return_asset`:
`Returned seat from {user_name or 'user'} ({new_used}/{seats_total or '∞'} seats used)`. -/
def softwareReturnNote (nameDisp : String) (newUsed total : Int) : String :=
  "Returned seat from " ++ nameDisp ++ " (" ++ toString newUsed ++ "/" ++
    fmtSeatsTotal total ++ " seats used)"

/-- Name of the seat holder being returned, from `return_asset`:
looked up only when `user_id` is truthy, and `None` when the user row
does not exist. -/
def swReturnUserName (db : DB) (user_id : Option Nat) : Option String :=
  if optNatTruthy user_id then
    match dbGetUser db (user_id.getD 0) with
    | some u => some u.name
    | none => none
  else none

/-- Embeds `models.AssetCondition(condition)` as a partial parse: the four
enum member values, anything else raises (caught and ignored by
`return_asset`). -/
def parseCondition : String → Option AssetCondition
  | "NEW" => some AssetCondition.NEW
  | "GOOD" => some AssetCondition.GOOD
  | "FAIR" => some AssetCondition.FAIR
  | "DAMAGED" => some AssetCondition.DAMAGED
  | _ => none

/-- Base RETURN note for hardware, from `return_asset`:
`Returned from {previous_user_name}` when a truthy previous user name
was resolved, else `Returned`. -/
def hwReturnBaseNote (db : DB) (asset : Asset) : String :=
  let prevName : Option String :=
    if optNatTruthy asset.assigned_to_user_id then
      match dbGetUser db (asset.assigned_to_user_id.getD 0) with
      | some u => some u.name
      | none => none
    else none
  if strTruthyOpt prevName then "Returned from " ++ prevName.getD "" else "Returned"

/-- Embeds `crud.assign_asset`. Checks, in source order: asset exists, asset
not RETIRED, user exists; then branches on the asset kind. SOFTWARE
coalesces both seat counters with `or 0`, enforces capacity only when
the coalesced `seats_total` is positive, increments `seats_used` and
emits an ASSIGN event; HARDWARE rejects when `assigned_to_user_id` is
set and otherwise records the single assignee. -/
def assign_asset (db : DB) (asset_id user_id : Nat) (actor_user_id : Option Nat)
    (notes : Option String) (now : Nat) : Except LedgerError (DB × Asset) :=
  match dbGetAsset db asset_id with
  | none => .error (.notFound "Asset not found")
  | some asset =>
    if asset.status = AssetStatus.RETIRED then
      .error (.invalidTransition "Cannot assign a retired asset.")
    else
      match dbGetUser db user_id with
      | none => .error (.notFound "User not found")
      | some user =>
        if asset.asset_type = AssetType.SOFTWARE then
          let total := asset.seats_total.getD 0
          let used := asset.seats_used.getD 0
          if 0 < total ∧ total ≤ used then
            .error (.capacity ("No seats available. All " ++ toString total ++
              " seats are in use."))
          else
            let a2 := { asset with
              seats_used := some (used + 1),
              status := AssetStatus.ASSIGNED,
              updated_at := now }
            let ev : AssetEvent := {
              asset_id := asset_id,
              event_type := AssetEventType.ASSIGN,
              from_user_id := none,
              to_user_id := some user_id,
              from_location_id := none,
              to_location_id := none,
              actor_user_id := actor_user_id,
              notes := some (pyStrOr notes (softwareAssignNote user.name (used + 1) total)) }
            .ok (commitAsset db a2 ev, a2)
        else
          match asset.assigned_to_user_id with
          | some cur =>
            let curName := match dbGetUser db cur with
              | some u => u.name
              | none => "User #" ++ toString cur
            .error (.conflict ("Asset is already assigned to " ++ curName ++
              ". Return it first before reassigning."))
          | none =>
            let a2 := { asset with
              assigned_to_user_id := some user_id,
              status := AssetStatus.ASSIGNED,
              updated_at := now }
            let ev : AssetEvent := {
              asset_id := asset_id,
              event_type := AssetEventType.ASSIGN,
              from_user_id := none,
              to_user_id := some user_id,
              from_location_id := none,
              to_location_id := none,
              actor_user_id := actor_user_id,
              notes := some (pyStrOr notes ("Assigned to " ++ user.name)) }
            .ok (commitAsset db a2 ev, a2)

/-- Embeds `crud.return_asset`. SOFTWARE: guards `seats_used <= 0`, decrements
the seat counter, reverts status to IN_STOCK exactly when the new
counter is zero, and emits a RETURN event with `from_user_id = user_id`
and a seat-utilization note. HARDWARE: captures the previous assignee,
clears it unconditionally, sets IN_STOCK, updates the condition only
when the supplied string parses as an `AssetCondition`, and emits a
RETURN event with `from_user_id` = previous assignee. -/
def return_asset (db : DB) (asset_id : Nat) (notes : Option String)
    (actor_user_id : Option Nat) (user_id : Option Nat)
    (condition : Option String) (now : Nat) : Except LedgerError (DB × Asset) :=
  match dbGetAsset db asset_id with
  | none => .error (.notFound "Asset not found")
  | some asset =>
    if asset.asset_type = AssetType.SOFTWARE then
      let used := asset.seats_used.getD 0
      if used ≤ 0 then
        .error (.capacity "No seats are currently in use.")
      else
        let newUsed := used - 1
        let a2 := { asset with
          seats_used := some newUsed,
          status := if newUsed = 0 then AssetStatus.IN_STOCK else asset.status,
          updated_at := now }
        let total := asset.seats_total.getD 0
        let note0 := softwareReturnNote (pyStrOr (swReturnUserName db user_id) "user") newUsed total
        let note1 := if strTruthyOpt notes then note0 ++ ". " ++ notes.getD "" else note0
        let ev : AssetEvent := {
          asset_id := asset_id,
          event_type := AssetEventType.RETURN,
          from_user_id := user_id,
          to_user_id := none,
          from_location_id := none,
          to_location_id := none,
          actor_user_id := actor_user_id,
          notes := some note1 }
        .ok (commitAsset db a2 ev, a2)
    else
      let cond2 := match condition with
        | some c =>
          if c ≠ "" then
            match parseCondition c with
            | some cc => cc
            | none => asset.condition
          else asset.condition
        | none => asset.condition
      let a2 := { asset with
        assigned_to_user_id := none,
        status := AssetStatus.IN_STOCK,
        condition := cond2,
        updated_at := now }
      let base := hwReturnBaseNote db asset
      let withCond :=
        if strTruthyOpt condition then base ++ " (Condition: " ++ condition.getD "" ++ ")"
        else base
      let note1 := if strTruthyOpt notes then withCond ++ ". " ++ notes.getD "" else withCond
      let ev : AssetEvent := {
        asset_id := asset_id,
        event_type := AssetEventType.RETURN,
        from_user_id := asset.assigned_to_user_id,
        to_user_id := none,
        from_location_id := none,
        to_location_id := none,
        actor_user_id := actor_user_id,
        notes := some note1 }
      .ok (commitAsset db a2 ev, a2)

/-- Embeds `schemas.AssetCreate` (after pydantic field validation). -/
structure AssetCreate where
  asset_tag : String
  asset_type : AssetType
  category : Option String
  subscription : Option String
  manufacturer : Option String
  model : Option String
  serial_number : Option String
  purchase_date : Option String
  warranty_start : Option String
  warranty_end : Option String
  warranty_extended_months : Int
  renewal_date : Option String
  seats_total : Option Int
  seats_used : Option Int
  status : AssetStatus
  condition : AssetCondition
  owner_org : String
  location_id : Option Nat
  assigned_to_user_id : Option Nat
  notes : Option String
deriving DecidableEq, Repr

/-- Embeds `schemas.AssetCreate.validate_hw_sw_fields`: HARDWARE requires a
truthy `category` and a falsy `subscription`; SOFTWARE the converse. -/
def validate_hw_sw_fields (p : AssetCreate) : Bool :=
  match p.asset_type with
  | AssetType.HARDWARE => strTruthyOpt p.category && !(strTruthyOpt p.subscription)
  | AssetType.SOFTWARE => strTruthyOpt p.subscription && !(strTruthyOpt p.category)

/-- Embeds `crud.create_asset`. Application-level duplicate checks are scoped
to the organization (`organization_id == org` / `IS NULL`); the
`serial_number` check runs only when the payload serial is truthy.
The constructed row nulls `category`/`manufacturer` for SOFTWARE and
`subscription` for HARDWARE, copies the seat counters unconditionally,
never sets `assigned_to_user_id`, and leaves `owner_org` and
`warranty_extended_months` at their column defaults (they are not
passed to the `models.Asset(...)` constructor). The commit is then
subject to the database's global (not organization-scoped) unique
indexes on `asset_tag` and `serial_number` declared in
`models.py` / migration `001_initial_schema.py`; primary keys start at
1, so the Python truthiness test `if existing_tag:` coincides with row
existence. -/
def create_asset (db : DB) (payload : AssetCreate) (actor_user_id : Option Nat)
    (organization_id : Option Nat) (now : Nat) : Except LedgerError (DB × Asset) :=
  if db.assets.any (fun a => a.asset_tag == payload.asset_tag &&
      a.organization_id == organization_id) then
    .error (.duplicateKey "Asset tag already exists")
  else if strTruthyOpt payload.serial_number &&
      db.assets.any (fun a => a.serial_number == payload.serial_number &&
        a.organization_id == organization_id) then
    .error (.duplicateKey "Serial number already exists")
  else
    let asset : Asset := {
      id := db.assets.length + 1,
      asset_tag := payload.asset_tag,
      asset_type := payload.asset_type,
      category := if payload.asset_type = AssetType.HARDWARE then payload.category else none,
      subscription := if payload.asset_type = AssetType.SOFTWARE then payload.subscription else none,
      manufacturer := if payload.asset_type = AssetType.HARDWARE then payload.manufacturer else none,
      model := payload.model,
      serial_number := payload.serial_number,
      purchase_date := payload.purchase_date,
      warranty_start := payload.warranty_start,
      warranty_end := payload.warranty_end,
      warranty_extended_months := 0,
      renewal_date := payload.renewal_date,
      seats_total := payload.seats_total,
      seats_used := payload.seats_used,
      status := payload.status,
      condition := payload.condition,
      owner_org := "Docket",
      location_id := payload.location_id,
      assigned_to_user_id := none,
      notes := payload.notes,
      created_at := now,
      updated_at := now,
      organization_id := organization_id }
    if db.assets.any (fun a => a.asset_tag == asset.asset_tag) then
      .error (.integrity "UNIQUE constraint failed: assets.asset_tag")
    else if asset.serial_number.isSome &&
        db.assets.any (fun a => a.serial_number == asset.serial_number) then
      .error (.integrity "UNIQUE constraint failed: assets.serial_number")
    else
      let ev : AssetEvent := {
        asset_id := asset.id,
        event_type := AssetEventType.CREATE,
        from_user_id := none,
        to_user_id := none,
        from_location_id := none,
        to_location_id := none,
        actor_user_id := actor_user_id,
        notes := some "Asset created" }
      .ok ({ db with assets := db.assets ++ [asset], events := db.events ++ [ev] }, asset)

/-- Embeds `schemas.AssetUpdate`: every field optional with PATCH semantics.
The outer `Option` is pydantic "explicitly present in the payload"
(`model_dump(exclude_unset=True)`); for nullable columns the inner
`Option` is the supplied value. -/
structure AssetUpdate where
  asset_type : Option AssetType
  category : Option (Option String)
  manufacturer : Option (Option String)
  model : Option (Option String)
  serial_number : Option (Option String)
  purchase_date : Option (Option String)
  warranty_start : Option (Option String)
  warranty_end : Option (Option String)
  warranty_extended_months : Option Int
  renewal_date : Option (Option String)
  seats_total : Option (Option Int)
  seats_used : Option (Option Int)
  status : Option AssetStatus
  condition : Option AssetCondition
  owner_org : Option String
  location_id : Option (Option Nat)
  assigned_to_user_id : Option (Option Nat)
  notes : Option (Option String)
deriving DecidableEq, Repr

/-- Embeds `crud._format_value_for_log` on an optional string column:
`None` renders `(empty)`. -/
def fmtOptStr : Option String → String
  | none => "(empty)"
  | some s => s

/-- Embeds `crud._format_value_for_log` on an optional integer column. -/
def fmtOptInt : Option Int → String
  | none => "(empty)"
  | some i => toString i

/-- Embeds `crud._format_value_for_log` on an optional id column. -/
def fmtOptNat : Option Nat → String
  | none => "(empty)"
  | some n => toString n

/-- Embeds `crud._format_value_for_log` on a plain integer. -/
def fmtInt (i : Int) : String := toString i

/-- Embeds `crud._format_value_for_log` on a plain string. -/
def fmtStr (s : String) : String := s

/-- Enum display: `str(value.value).replace("_", " ")`. -/
def fmtAssetType : AssetType → String
  | AssetType.HARDWARE => "HARDWARE"
  | AssetType.SOFTWARE => "SOFTWARE"

/-- Enum display: `str(value.value).replace("_", " ")`. -/
def fmtStatus : AssetStatus → String
  | AssetStatus.IN_STOCK => "IN STOCK"
  | AssetStatus.ASSIGNED => "ASSIGNED"
  | AssetStatus.IN_REPAIR => "IN REPAIR"
  | AssetStatus.RETIRED => "RETIRED"

/-- Enum display: `str(value.value).replace("_", " ")`. -/
def fmtCondition : AssetCondition → String
  | AssetCondition.NEW => "NEW"
  | AssetCondition.GOOD => "GOOD"
  | AssetCondition.FAIR => "FAIR"
  | AssetCondition.DAMAGED => "DAMAGED"

/-- One step of the `update_asset` change loop for a non-location
field: no entry when the field is absent from the payload or its value
equals the current one, otherwise the humanized
`Field: old → new` entry. -/
def diffOf {α : Type} [DecidableEq α] (pv : Option α) (old : α)
    (fmt : α → String) (fieldName : String) : List String :=
  match pv with
  | none => []
  | some v => if v = old then [] else [fieldName ++ ": " ++ fmt old ++ " → " ++ fmt v]

/-- The `changes` list accumulated by `crud.update_asset`, in pydantic
field-definition order (the iteration order of
`model_dump(exclude_unset=True).items()`); `location_id` is skipped
here because the loop routes it to the MOVE event instead. -/
def fieldDiffs (p : AssetUpdate) (a : Asset) : List String :=
  diffOf p.asset_type a.asset_type fmtAssetType "Asset Type"
  ++ diffOf p.category a.category fmtOptStr "Category"
  ++ diffOf p.manufacturer a.manufacturer fmtOptStr "Manufacturer"
  ++ diffOf p.model a.model fmtOptStr "Model"
  ++ diffOf p.serial_number a.serial_number fmtOptStr "Serial Number"
  ++ diffOf p.purchase_date a.purchase_date fmtOptStr "Purchase Date"
  ++ diffOf p.warranty_start a.warranty_start fmtOptStr "Warranty Start"
  ++ diffOf p.warranty_end a.warranty_end fmtOptStr "Warranty End"
  ++ diffOf p.warranty_extended_months a.warranty_extended_months fmtInt "Warranty Extended Months"
  ++ diffOf p.renewal_date a.renewal_date fmtOptStr "Renewal Date"
  ++ diffOf p.seats_total a.seats_total fmtOptInt "Seats Total"
  ++ diffOf p.seats_used a.seats_used fmtOptInt "Seats Used"
  ++ diffOf p.status a.status fmtStatus "Status"
  ++ diffOf p.condition a.condition fmtCondition "Condition"
  ++ diffOf p.owner_org a.owner_org fmtStr "Owner Org"
  ++ diffOf p.assigned_to_user_id a.assigned_to_user_id fmtOptNat "Assigned To User Id"
  ++ diffOf p.notes a.notes fmtOptStr "Notes"

/-- The `location_change` capture of `crud.update_asset`: present
exactly when `location_id` is in the payload with a different value,
recording the old and new ids. -/
def locDiff (p : AssetUpdate) (a : Asset) : Option (Option Nat × Option Nat) :=
  match p.location_id with
  | none => none
  | some v => if v = a.location_id then none else some (a.location_id, v)

/-- Net effect of the `setattr` loop of `crud.update_asset`: every
field present in the payload is overwritten (writing an equal value is
indistinguishable from skipping it), absent fields are untouched. -/
def applyPayload (p : AssetUpdate) (a : Asset) : Asset :=
  { a with
    asset_type := p.asset_type.getD a.asset_type,
    category := p.category.getD a.category,
    manufacturer := p.manufacturer.getD a.manufacturer,
    model := p.model.getD a.model,
    serial_number := p.serial_number.getD a.serial_number,
    purchase_date := p.purchase_date.getD a.purchase_date,
    warranty_start := p.warranty_start.getD a.warranty_start,
    warranty_end := p.warranty_end.getD a.warranty_end,
    warranty_extended_months := p.warranty_extended_months.getD a.warranty_extended_months,
    renewal_date := p.renewal_date.getD a.renewal_date,
    seats_total := p.seats_total.getD a.seats_total,
    seats_used := p.seats_used.getD a.seats_used,
    status := p.status.getD a.status,
    condition := p.condition.getD a.condition,
    owner_org := p.owner_org.getD a.owner_org,
    location_id := p.location_id.getD a.location_id,
    assigned_to_user_id := p.assigned_to_user_id.getD a.assigned_to_user_id,
    notes := p.notes.getD a.notes }

/-- Embeds `crud._get_location_name`: `(none)` for a null id, the location
name when the row exists, `(unknown #<id>)` otherwise. -/
def locationName (db : DB) (lid : Option Nat) : String :=
  match lid with
  | none => "(none)"
  | some i =>
    match db.locations.find? (fun l => l.id == i) with
    | some l => l.name
    | none => "(unknown #" ++ toString i ++ ")"

/-- Embeds `crud.update_asset`. When nothing actually changed the asset is
returned without commit (no event, no `updated_at` bump). Otherwise a
MOVE event is emitted for a `location_id` change (with resolved
location names in the note) and all other changed fields batch into a
single UPDATE event with semicolon-joined entries; the MOVE event is
added before the UPDATE event, as in the source. -/
def update_asset (db : DB) (asset : Asset) (p : AssetUpdate)
    (actor_user_id : Option Nat) (now : Nat) : DB × Asset :=
  let changes := fieldDiffs p asset
  let locCh := locDiff p asset
  if changes = [] ∧ locCh = none then (db, asset)
  else
    let a2 := { applyPayload p asset with updated_at := now }
    let moveEvs : List AssetEvent :=
      match locCh with
      | some (fl, tl) => [{
          asset_id := asset.id,
          event_type := AssetEventType.MOVE,
          from_user_id := none,
          to_user_id := none,
          from_location_id := fl,
          to_location_id := tl,
          actor_user_id := actor_user_id,
          notes := some ("Moved from " ++ locationName db fl ++ " to " ++ locationName db tl) }]
      | none => []
    let updEvs : List AssetEvent :=
      if changes = [] then []
      else [{
        asset_id := asset.id,
        event_type := AssetEventType.UPDATE,
        from_user_id := none,
        to_user_id := none,
        from_location_id := none,
        to_location_id := none,
        actor_user_id := actor_user_id,
        notes := some (String.intercalate "; " changes) }]
    ({ db with
        assets := db.assets.map (fun x => if x.id == asset.id then a2 else x),
        events := db.events ++ moveEvs ++ updEvs }, a2)

/-- Embeds `func.coalesce(models.Asset.seats_used, 0)` in `get_audit_summary`. -/
def coalesceSeatsUsed (a : Asset) : Int := a.seats_used.getD 0

/-- The `assigned_assets` counting predicate of
`crud.get_audit_summary`: hardware with stored status ASSIGNED, or
software that is not RETIRED with a non-null `seats_total` that the
coalesced `seats_used` has reached. -/
def countedAssigned (a : Asset) : Bool :=
  (a.asset_type == AssetType.HARDWARE && a.status == AssetStatus.ASSIGNED) ||
  (a.asset_type == AssetType.SOFTWARE && !(a.status == AssetStatus.RETIRED) &&
    a.seats_total.isSome && decide (a.seats_total.getD 0 ≤ coalesceSeatsUsed a))

/-- The `in_stock_assets` counting predicate of
`crud.get_audit_summary`: hardware with stored status IN_STOCK, or
software that is not RETIRED with unlimited (`NULL`) seats or spare
capacity. -/
def countedInStock (a : Asset) : Bool :=
  (a.asset_type == AssetType.HARDWARE && a.status == AssetStatus.IN_STOCK) ||
  (a.asset_type == AssetType.SOFTWARE && !(a.status == AssetStatus.RETIRED) &&
    (a.seats_total.isNone || decide (coalesceSeatsUsed a < a.seats_total.getD 0)))

/-- The `retired_assets` counting predicate of
`crud.get_audit_summary`: stored status alone, for either kind. -/
def countedRetired (a : Asset) : Bool :=
  a.status == AssetStatus.RETIRED

/-- Organization scoping of `get_audit_summary` asset counts:
`organization_id == org`, with the no-organization scope matching
`IS NULL`. -/
def inOrgScope (org : Option Nat) (a : Asset) : Bool :=
  a.organization_id == org

/-- The asset status rollup of `crud.get_audit_summary`:
(assigned, in_stock, retired) counts over the organization scope. -/
def auditStatusCounts (db : DB) (org : Option Nat) : Nat × Nat × Nat :=
  let pool := db.assets.filter (inOrgScope org)
  (pool.countP countedAssigned, pool.countP countedInStock, pool.countP countedRetired)

deriving instance DecidableEq for Except

/-- Successful result of a crud call, `none` on a raised error. -/
def exOk? : Except LedgerError (DB × Asset) → Option (DB × Asset)
  | .ok x => some x
  | .error _ => none

/-- Predicate `NoopPayload p a`: every field present in the update payload equals
the asset's current value (a vacuous PATCH). `Option.getD` makes each
conjunct trivially true for an absent field. -/
def NoopPayload (p : AssetUpdate) (a : Asset) : Prop :=
  p.asset_type.getD a.asset_type = a.asset_type ∧
  p.category.getD a.category = a.category ∧
  p.manufacturer.getD a.manufacturer = a.manufacturer ∧
  p.model.getD a.model = a.model ∧
  p.serial_number.getD a.serial_number = a.serial_number ∧
  p.purchase_date.getD a.purchase_date = a.purchase_date ∧
  p.warranty_start.getD a.warranty_start = a.warranty_start ∧
  p.warranty_end.getD a.warranty_end = a.warranty_end ∧
  p.warranty_extended_months.getD a.warranty_extended_months = a.warranty_extended_months ∧
  p.renewal_date.getD a.renewal_date = a.renewal_date ∧
  p.seats_total.getD a.seats_total = a.seats_total ∧
  p.seats_used.getD a.seats_used = a.seats_used ∧
  p.status.getD a.status = a.status ∧
  p.condition.getD a.condition = a.condition ∧
  p.owner_org.getD a.owner_org = a.owner_org ∧
  p.location_id.getD a.location_id = a.location_id ∧
  p.assigned_to_user_id.getD a.assigned_to_user_id = a.assigned_to_user_id ∧
  p.notes.getD a.notes = a.notes

/-! ### Concrete fixtures used by counterexamples, scenarios and witnesses -/

/-- A user row. -/
def uAlice : User := { id := 1, name := "Alice", organization_id := none }

/-- A user row. -/
def uBob : User := { id := 2, name := "Bob", organization_id := none }

/-- A user row. -/
def uCarol : User := { id := 3, name := "Carol", organization_id := none }

/-- A plain in-stock hardware asset row, the base for fixtures. -/
def baseAsset : Asset := {
  id := 1,
  asset_tag := "A-1",
  asset_type := AssetType.HARDWARE,
  category := some "Laptop",
  subscription := none,
  manufacturer := none,
  model := none,
  serial_number := none,
  purchase_date := none,
  warranty_start := none,
  warranty_end := none,
  warranty_extended_months := 0,
  renewal_date := none,
  seats_total := none,
  seats_used := none,
  status := AssetStatus.IN_STOCK,
  condition := AssetCondition.GOOD,
  owner_org := "Docket",
  location_id := none,
  assigned_to_user_id := none,
  notes := none,
  created_at := 0,
  updated_at := 0,
  organization_id := none }

/-- An empty store. -/
def emptyDB : DB := { assets := [], users := [], locations := [], events := [] }

/-- A well-formed HARDWARE creation payload (passes
`validate_hw_sw_fields`) that nevertheless carries seat counters. -/
def c4Payload : AssetCreate := {
  asset_tag := "HW-1",
  asset_type := AssetType.HARDWARE,
  category := some "Laptop",
  subscription := none,
  manufacturer := some "Lenovo",
  model := none,
  serial_number := none,
  purchase_date := none,
  warranty_start := none,
  warranty_end := none,
  warranty_extended_months := 0,
  renewal_date := none,
  seats_total := some 5,
  seats_used := some 3,
  status := AssetStatus.IN_STOCK,
  condition := AssetCondition.GOOD,
  owner_org := "Docket",
  location_id := none,
  assigned_to_user_id := none,
  notes := none }

/-- The asset row `create_asset emptyDB c4Payload none none 0` inserts. -/
def c4OutAsset : Asset := {
  id := 1,
  asset_tag := "HW-1",
  asset_type := AssetType.HARDWARE,
  category := some "Laptop",
  subscription := none,
  manufacturer := some "Lenovo",
  model := none,
  serial_number := none,
  purchase_date := none,
  warranty_start := none,
  warranty_end := none,
  warranty_extended_months := 0,
  renewal_date := none,
  seats_total := some 5,
  seats_used := some 3,
  status := AssetStatus.IN_STOCK,
  condition := AssetCondition.GOOD,
  owner_org := "Docket",
  location_id := none,
  assigned_to_user_id := none,
  notes := none,
  created_at := 0,
  updated_at := 0,
  organization_id := none }

/-- The store after that create. -/
def c4OutDB : DB := {
  assets := [c4OutAsset],
  users := [],
  locations := [],
  events := [{
    asset_id := 1,
    event_type := AssetEventType.CREATE,
    from_user_id := none,
    to_user_id := none,
    from_location_id := none,
    to_location_id := none,
    actor_user_id := none,
    notes := some "Asset created" }] }

/-- A SOFTWARE asset row (kind-exclusive fields correctly null). -/
def c4swAsset : Asset := { baseAsset with
  asset_type := AssetType.SOFTWARE,
  category := none,
  subscription := some "Zoom" }

/-- A store holding only `c4swAsset`. -/
def c4swDB : DB := { assets := [c4swAsset], users := [], locations := [], events := [] }

/-- An update payload that writes a `category` onto a SOFTWARE asset. -/
def c4UpdPayload : AssetUpdate := {
  asset_type := none,
  category := some (some "Sneaky"),
  manufacturer := none,
  model := none,
  serial_number := none,
  purchase_date := none,
  warranty_start := none,
  warranty_end := none,
  warranty_extended_months := none,
  renewal_date := none,
  seats_total := none,
  seats_used := none,
  status := none,
  condition := none,
  owner_org := none,
  location_id := none,
  assigned_to_user_id := none,
  notes := none }

/-- SOFTWARE asset with `seats_total = 0` (a non-null value the code
treats as unlimited because of the `or 0` coalescing plus the
`seats_total > 0` guard). -/
def c1Asset : Asset := { baseAsset with
  asset_type := AssetType.SOFTWARE,
  category := none,
  subscription := some "Slack",
  seats_total := some 0,
  seats_used := some 0 }

/-- Store for the zero-seats counterexample. -/
def c1DB : DB := { assets := [c1Asset], users := [uAlice], locations := [], events := [] }

/-- SOFTWARE creation payload with two seats, for Scenario A. -/
def scPayload : AssetCreate := {
  asset_tag := "SW-1",
  asset_type := AssetType.SOFTWARE,
  category := none,
  subscription := some "Slack",
  manufacturer := none,
  model := none,
  serial_number := none,
  purchase_date := none,
  warranty_start := none,
  warranty_end := none,
  warranty_extended_months := 0,
  renewal_date := none,
  seats_total := some 2,
  seats_used := none,
  status := AssetStatus.IN_STOCK,
  condition := AssetCondition.GOOD,
  owner_org := "Docket",
  location_id := none,
  assigned_to_user_id := none,
  notes := none }

/-- Scenario A start: three users, no assets. -/
def scDB0 : DB := { assets := [], users := [uAlice, uBob, uCarol], locations := [], events := [] }

/-- Scenario A: create the two-seat software asset, then assign it to
Alice and to Bob. -/
def scAfterTwoAssigns : Option (DB × Asset) := do
  let r1 ← exOk? (create_asset scDB0 scPayload none none 1)
  let r2 ← exOk? (assign_asset r1.1 1 1 none none 2)
  exOk? (assign_asset r2.1 1 2 none none 3)

/-- Scenario A: the third assign attempt (to Carol), at capacity. -/
def scThirdAssign : Option (Except LedgerError (DB × Asset)) :=
  scAfterTwoAssigns.map (fun r => assign_asset r.1 1 3 none none 4)

/-- Hardware asset that is RETIRED while still assigned to Alice
(reachable: create, assign, then `update_asset` with
`status := RETIRED`, which never clears the assignee). -/
def c2Asset : Asset := { baseAsset with
  assigned_to_user_id := some 1,
  status := AssetStatus.RETIRED }

/-- Store for the retired-precedence counterexample. -/
def c2DB : DB := { assets := [c2Asset], users := [uAlice, uBob], locations := [], events := [] }

/-- Hardware asset with seats-free fields, assigned to Alice, for the
C2 witness (conflict branch). -/
def c2wAsset : Asset := { baseAsset with
  assigned_to_user_id := some 1,
  status := AssetStatus.ASSIGNED }

/-- Store for the C2 witness. -/
def c2wDB : DB := { assets := [c2wAsset], users := [uAlice, uBob], locations := [], events := [] }

/-- SOFTWARE asset at full capacity (2 of 2 seats), for the C1 witness. -/
def c1wAsset : Asset := { baseAsset with
  asset_type := AssetType.SOFTWARE,
  category := none,
  subscription := some "Zoom",
  seats_total := some 2,
  seats_used := some 2,
  status := AssetStatus.ASSIGNED }

/-- Store for the C1 witness. -/
def c1wDB : DB := { assets := [c1wAsset], users := [uAlice], locations := [], events := [] }

/-- SOFTWARE asset with two of three seats in use, for the C3 witness. -/
def c3wAsset : Asset := { baseAsset with
  asset_type := AssetType.SOFTWARE,
  category := none,
  subscription := some "Slack",
  seats_total := some 3,
  seats_used := some 2,
  status := AssetStatus.ASSIGNED }

/-- Store for the C3 witness. -/
def c3wDB : DB := { assets := [c3wAsset], users := [uAlice], locations := [], events := [] }

/-- Hardware asset assigned to Alice, for the C5 witness and the C10
counterexample. -/
def c10Asset : Asset := { baseAsset with
  assigned_to_user_id := some 1,
  status := AssetStatus.ASSIGNED }

/-- Store holding `c10Asset` and Alice. -/
def c10DB : DB := { assets := [c10Asset], users := [uAlice], locations := [], events := [] }

/-- Hardware asset assigned to Alice, for the C10 witness. -/
def c10wAsset : Asset := { baseAsset with
  assigned_to_user_id := some 1,
  status := AssetStatus.ASSIGNED }

/-- Store for the C10 witness. -/
def c10wDB : DB := { assets := [c10wAsset], users := [uAlice], locations := [], events := [] }

/-- Hardware asset assigned to Bob, for the C5 witness. -/
def c5wAsset : Asset := { baseAsset with
  assigned_to_user_id := some 2,
  status := AssetStatus.ASSIGNED }

/-- Store for the C5 witness. -/
def c5wDB : DB := { assets := [c5wAsset], users := [uAlice, uBob], locations := [], events := [] }

/-- Two locations, for the MOVE fixtures. -/
def locHQ : Location := { id := 1, name := "HQ" }

/-- Two locations, for the MOVE fixtures. -/
def locLab : Location := { id := 2, name := "Lab" }

/-- Hardware asset sitting at location 1. -/
def c6Asset : Asset := { baseAsset with location_id := some 1 }

/-- Store with both locations and the asset at HQ. -/
def c6DB : DB := { assets := [c6Asset], users := [], locations := [locHQ, locLab], events := [] }

/-- Update payload moving the asset to location 2 and changing nothing
else. -/
def c6Payload : AssetUpdate := { c4UpdPayload with
  category := none,
  location_id := some (some 2) }

/-- Asset and payload for the C7 (no-op update) witness: the payload
re-supplies the current status and condition. -/
def c7Payload : AssetUpdate := { c4UpdPayload with
  category := none,
  status := some AssetStatus.IN_STOCK,
  condition := some AssetCondition.GOOD }

/-- Existing asset with tag T1 in organization 1. -/
def c8Existing : Asset := { baseAsset with
  asset_tag := "T1",
  organization_id := some 1 }

/-- Store for the cross-organization duplicate counterexample. -/
def c8DB : DB := { assets := [c8Existing], users := [], locations := [], events := [] }

/-- Creation payload reusing tag T1. -/
def c8Payload : AssetCreate := { c4Payload with asset_tag := "T1" }

/-- SOFTWARE asset over capacity (3 of 2 seats), not RETIRED, for the
C9 witness. -/
def c9wAsset : Asset := { baseAsset with
  asset_type := AssetType.SOFTWARE,
  category := none,
  subscription := some "Slack",
  seats_total := some 2,
  seats_used := some 3,
  status := AssetStatus.IN_REPAIR }

/-! ### Helper lemmas -/

/-- A change-loop step contributes no entry when the payload field is
absent or equal to the current value. -/
theorem diffOf_eq_nil {α : Type} [DecidableEq α] {pv : Option α} {old : α}
    (fmt : α → String) (fieldName : String) (h : pv.getD old = old) :
    diffOf pv old fmt fieldName = [] := by
  cases pv with
  | none => rfl
  | some v =>
    simp only [Option.getD] at h
    simp [diffOf, h]

/-- No MOVE capture when the payload location is absent or equal. -/
theorem locDiff_eq_none {p : AssetUpdate} {a : Asset}
    (h : p.location_id.getD a.location_id = a.location_id) :
    locDiff p a = none := by
  cases hl : p.location_id with
  | none => simp [locDiff, hl]
  | some v =>
    rw [hl] at h
    simp only [Option.getD] at h
    simp [locDiff, hl, h]

/-- A string that parses as an `AssetCondition` is non-empty. -/
theorem parseCondition_ne_empty {c : String} {cc : AssetCondition}
    (h : parseCondition c = some cc) : c ≠ "" := by
  intro he
  subst he
  simp [parseCondition] at h

/-! ### C1 -/

/-- Claim C1 counterexample: a SOFTWARE asset with `seats_total` set to
`0` has `seats_used ≥ seats_total`, yet `assign_asset` does not fail
with a CapacityError — the `or 0` coalescing plus the `seats_total > 0`
guard treat the non-null value `0` as unlimited, and the assign
succeeds, incrementing `seats_used` to 1. -/
theorem c1_zero_seats_counterexample :
    c1Asset.asset_type = AssetType.SOFTWARE
    ∧ c1Asset.seats_total = some 0
    ∧ c1Asset.seats_total.getD 0 ≤ c1Asset.seats_used.getD 0
    ∧ (exOk? (assign_asset c1DB 1 1 none none 5)).map
        (fun r => (r.2.seats_used, r.2.status)) =
      some (some 1, AssetStatus.ASSIGNED) := by
  refine ⟨rfl, rfl, by decide, by decide⟩

/-- Claim C1 (amended): for a SOFTWARE asset, `assign_asset` fails with
a CapacityError and leaves the store unchanged exactly when the
coalesced `seats_total` is positive and `seats_used` has reached it (a
null — or zero — `seats_total` is treated as unlimited); otherwise,
with no caller-supplied notes, it increments `seats_used` by one, sets
status ASSIGNED and emits exactly one ASSIGN event carrying
`to_user_id` and the `used/total` (or `used/∞`) seat-utilization note.
Scenario A: with `seats_total=2` the first two assigns succeed ending
at `seats_used=2`, and the third fails with the CapacityError. -/
theorem c1_software_assign_amended
    (db : DB) (aid uid : Nat) (actor : Option Nat) (now : Nat)
    (asset : Asset) (user : User)
    (ha : dbGetAsset db aid = some asset)
    (hty : asset.asset_type = AssetType.SOFTWARE)
    (hnr : asset.status ≠ AssetStatus.RETIRED)
    (hu : dbGetUser db uid = some user) :
    (0 < asset.seats_total.getD 0 ∧ asset.seats_total.getD 0 ≤ asset.seats_used.getD 0 →
      assign_asset db aid uid actor none now =
        .error (.capacity ("No seats available. All " ++ toString (asset.seats_total.getD 0) ++
          " seats are in use.")))
    ∧ (¬(0 < asset.seats_total.getD 0 ∧ asset.seats_total.getD 0 ≤ asset.seats_used.getD 0) →
      ∃ db2 a2, assign_asset db aid uid actor none now = .ok (db2, a2)
        ∧ a2.seats_used = some (asset.seats_used.getD 0 + 1)
        ∧ a2.status = AssetStatus.ASSIGNED
        ∧ db2.events = db.events ++ [{
            asset_id := aid,
            event_type := AssetEventType.ASSIGN,
            from_user_id := none,
            to_user_id := some uid,
            from_location_id := none,
            to_location_id := none,
            actor_user_id := actor,
            notes := some (softwareAssignNote user.name (asset.seats_used.getD 0 + 1)
              (asset.seats_total.getD 0)) }])
    ∧ scAfterTwoAssigns.map (fun r => (r.2.seats_used, r.2.status)) =
        some (some 2, AssetStatus.ASSIGNED)
    ∧ scThirdAssign = some (.error (.capacity "No seats available. All 2 seats are in use.")) := by
  refine ⟨?_, ?_, by decide, by decide⟩
  · intro hcap
    simp only [assign_asset, ha, hu]
    rw [if_neg hnr]
    simp only [hty, reduceIte]
    rw [if_pos hcap]
  · intro hcap
    simp only [assign_asset, ha, hu]
    rw [if_neg hnr]
    simp only [hty, reduceIte]
    rw [if_neg hcap]
    exact ⟨_, _, rfl, rfl, rfl, rfl⟩

/-- Witness for C1 (amended): a software asset with 2 of 2 seats in
use fails the third-party assign with the CapacityError. -/
theorem c1_software_assign_amended_witness :
    assign_asset c1wDB 1 1 none none 7 =
      .error (.capacity "No seats available. All 2 seats are in use.") := by
  have h := (c1_software_assign_amended c1wDB 1 1 none 7 c1wAsset uAlice rfl rfl
    (by decide) rfl).1 (by decide)
  exact h

/-! ### C2 -/

/-- Claim C2 counterexample: a HARDWARE asset that is RETIRED while
still assigned fails `assign_asset` with the InvalidTransitionError
("Cannot assign a retired asset."), not with a ConflictError — the
RETIRED guard precedes the already-assigned guard. -/
theorem c2_retired_precedence_counterexample :
    c2Asset.asset_type = AssetType.HARDWARE
    ∧ c2Asset.assigned_to_user_id = some 1
    ∧ assign_asset c2DB 1 2 none none 5 =
        .error (.invalidTransition "Cannot assign a retired asset.")
    ∧ ∀ msg, assign_asset c2DB 1 2 none none 5 ≠ .error (.conflict msg) := by
  have hres : assign_asset c2DB 1 2 none none 5 =
      .error (.invalidTransition "Cannot assign a retired asset.") := by decide
  refine ⟨rfl, rfl, hres, ?_⟩
  intro msg h
  rw [hres] at h
  simp at h

/-- Claim C2 (amended): for a non-RETIRED HARDWARE asset and an
existing target user, `assign_asset` fails with a ConflictError
whenever `assigned_to_user_id` is already set — never silently
reassigning (an error result leaves the store untouched) — and when
`assigned_to_user_id` is null it sets the assignee to the target user,
sets status ASSIGNED and emits exactly one ASSIGN event carrying
`to_user_id`. (When the asset is RETIRED the InvalidTransitionError
takes precedence over the ConflictError.) -/
theorem c2_hardware_assign_amended
    (db : DB) (aid uid : Nat) (actor : Option Nat) (nts : Option String) (now : Nat)
    (asset : Asset) (user : User)
    (ha : dbGetAsset db aid = some asset)
    (hty : asset.asset_type = AssetType.HARDWARE)
    (hnr : asset.status ≠ AssetStatus.RETIRED)
    (hu : dbGetUser db uid = some user) :
    (∀ cur, asset.assigned_to_user_id = some cur →
      ∃ msg, assign_asset db aid uid actor nts now = .error (.conflict msg))
    ∧ (asset.assigned_to_user_id = none →
      ∃ db2 a2, assign_asset db aid uid actor nts now = .ok (db2, a2)
        ∧ a2.assigned_to_user_id = some uid
        ∧ a2.status = AssetStatus.ASSIGNED
        ∧ ∃ ev, db2.events = db.events ++ [ev]
            ∧ ev.event_type = AssetEventType.ASSIGN
            ∧ ev.to_user_id = some uid) := by
  constructor
  · intro cur hcur
    simp only [assign_asset, ha, hu, hcur]
    rw [if_neg hnr]
    simp only [hty, reduceIte]
    exact ⟨_, rfl⟩
  · intro hnone
    simp only [assign_asset, ha, hu, hnone]
    rw [if_neg hnr]
    simp only [hty, reduceIte]
    exact ⟨_, _, rfl, rfl, rfl, _, rfl, rfl, rfl⟩

/-- Witness for C2 (amended): a hardware asset assigned to Alice
rejects an assign to Bob with a ConflictError. -/
theorem c2_hardware_assign_amended_witness :
    ∃ msg, assign_asset c2wDB 1 2 none none 7 = .error (.conflict msg) :=
  (c2_hardware_assign_amended c2wDB 1 2 none none 7 c2wAsset uBob rfl rfl
    (by decide) rfl).1 1 rfl

/-! ### C3 -/

/-- Claim C3: for a SOFTWARE asset, `return_asset` fails with a
CapacityError when the coalesced `seats_used` is at most 0 (the store
is left unchanged); otherwise it decrements `seats_used` by one, sets
status IN_STOCK exactly when the counter reaches 0 — remaining
ASSIGNED when it was ASSIGNED and seats are still in use — and emits
exactly one RETURN event whose `from_user_id` equals the `user_id`
argument, with a seat-utilization note. -/
theorem c3_software_return
    (db : DB) (aid now : Nat) (nts : Option String) (actor : Option Nat)
    (uid : Option Nat) (cond : Option String) (asset : Asset)
    (ha : dbGetAsset db aid = some asset)
    (hty : asset.asset_type = AssetType.SOFTWARE) :
    (asset.seats_used.getD 0 ≤ 0 →
      return_asset db aid nts actor uid cond now =
        .error (.capacity "No seats are currently in use."))
    ∧ (0 < asset.seats_used.getD 0 →
      ∃ db2 a2, return_asset db aid nts actor uid cond now = .ok (db2, a2)
        ∧ a2.seats_used = some (asset.seats_used.getD 0 - 1)
        ∧ a2.status =
            (if asset.seats_used.getD 0 - 1 = 0 then AssetStatus.IN_STOCK else asset.status)
        ∧ (asset.status = AssetStatus.ASSIGNED → asset.seats_used.getD 0 - 1 ≠ 0 →
            a2.status = AssetStatus.ASSIGNED)
        ∧ ∃ ev, db2.events = db.events ++ [ev]
            ∧ ev.event_type = AssetEventType.RETURN
            ∧ ev.from_user_id = uid
            ∧ ev.notes = some (if strTruthyOpt nts then
                softwareReturnNote (pyStrOr (swReturnUserName db uid) "user")
                  (asset.seats_used.getD 0 - 1) (asset.seats_total.getD 0) ++ ". " ++ nts.getD ""
              else softwareReturnNote (pyStrOr (swReturnUserName db uid) "user")
                  (asset.seats_used.getD 0 - 1) (asset.seats_total.getD 0))) := by
  constructor
  · intro hz
    simp only [return_asset, ha]
    simp only [hty, reduceIte]
    rw [if_pos hz]
  · intro hpos
    simp only [return_asset, ha]
    simp only [hty, reduceIte]
    rw [if_neg (not_le.mpr hpos)]
    refine ⟨_, _, rfl, rfl, rfl, ?_, _, rfl, rfl, rfl, rfl⟩
    intro hst hne
    simp only [hst, if_neg hne]

/-- Witness for C3: returning one of two seats in use leaves the asset
ASSIGNED with one seat in use and records the RETURN event from
user 1. -/
theorem c3_software_return_witness :
    ∃ db2 a2, return_asset c3wDB 1 none none (some 1) none 7 = .ok (db2, a2)
      ∧ a2.seats_used = some (c3wAsset.seats_used.getD 0 - 1)
      ∧ a2.status =
          (if c3wAsset.seats_used.getD 0 - 1 = 0 then AssetStatus.IN_STOCK else c3wAsset.status)
      ∧ (c3wAsset.status = AssetStatus.ASSIGNED → c3wAsset.seats_used.getD 0 - 1 ≠ 0 →
          a2.status = AssetStatus.ASSIGNED)
      ∧ ∃ ev, db2.events = c3wDB.events ++ [ev]
          ∧ ev.event_type = AssetEventType.RETURN
          ∧ ev.from_user_id = some 1
          ∧ ev.notes = some (if strTruthyOpt none then
              softwareReturnNote (pyStrOr (swReturnUserName c3wDB (some 1)) "user")
                (c3wAsset.seats_used.getD 0 - 1) (c3wAsset.seats_total.getD 0) ++ ". " ++
                (none : Option String).getD ""
            else softwareReturnNote (pyStrOr (swReturnUserName c3wDB (some 1)) "user")
                (c3wAsset.seats_used.getD 0 - 1) (c3wAsset.seats_total.getD 0)) :=
  (c3_software_return c3wDB 1 7 none none (some 1) none c3wAsset rfl rfl).2 (by decide)

/-! ### C10 -/

/-- Claim C10 counterexample: the empty string is a condition value
that is not one of NEW/GOOD/FAIR/DAMAGED, and a hardware return with
`condition=""` indeed raises no error and leaves the stored condition
unchanged — but the string is NOT appended to the RETURN notes, because
the `if condition:` truthiness guard skips the append for an empty
string. The event notes stay `Returned from Alice` with no
`(Condition: )` suffix. -/
theorem c10_empty_condition_counterexample :
    parseCondition "" = none
    ∧ (exOk? (return_asset c10DB 1 none none none (some "") 5)).map
        (fun r => (r.2.condition, r.1.events.map (fun e => e.notes))) =
      some (AssetCondition.GOOD, [some "Returned from Alice"]) := by
  refine ⟨rfl, by decide⟩

/-! ### C5 -/

/-- Claim C5: for a HARDWARE asset, `return_asset` always succeeds —
also when `assigned_to_user_id` is already null — clearing the
assignee unconditionally, setting status IN_STOCK, and emitting one
RETURN event whose `from_user_id` is the previous assignee (null when
there was none); with no prior assignee and nothing else supplied the
notes read `Returned`; a supplied condition value (one of the
`AssetCondition` members) updates the stored condition and is appended
to the event notes. -/
theorem c5_hardware_return
    (db : DB) (aid now : Nat) (nts cond : Option String) (actor uid : Option Nat)
    (asset : Asset)
    (ha : dbGetAsset db aid = some asset)
    (hty : asset.asset_type = AssetType.HARDWARE) :
    ∃ db2 a2 ev, return_asset db aid nts actor uid cond now = .ok (db2, a2)
      ∧ a2.assigned_to_user_id = none
      ∧ a2.status = AssetStatus.IN_STOCK
      ∧ db2.events = db.events ++ [ev]
      ∧ ev.event_type = AssetEventType.RETURN
      ∧ ev.from_user_id = asset.assigned_to_user_id
      ∧ (asset.assigned_to_user_id = none → cond = none → nts = none →
          ev.notes = some "Returned")
      ∧ (cond = none → a2.condition = asset.condition)
      ∧ (∀ c cc, cond = some c → parseCondition c = some cc →
          a2.condition = cc ∧ (nts = none →
            ev.notes = some (hwReturnBaseNote db asset ++ " (Condition: " ++ c ++ ")"))) := by
  simp only [return_asset, ha]
  simp only [hty, reduceIte]
  refine ⟨_, _, _, rfl, rfl, rfl, rfl, rfl, rfl, ?_, ?_, ?_⟩
  · intro h1 h2 h3
    subst h2
    subst h3
    simp [hwReturnBaseNote, h1, optNatTruthy, strTruthyOpt]
  · intro h2
    subst h2
    rfl
  · intro c cc hcond hparse
    subst hcond
    have hne : c ≠ "" := parseCondition_ne_empty hparse
    constructor
    · simp only [if_pos hne, hparse]
    · intro h3
      subst h3
      simp [strTruthyOpt, hne]

/-- Witness for C5: returning the hardware asset assigned to Bob with
condition `DAMAGED` succeeds, clears the assignee, stores the parsed
condition and appends it to the note. -/
theorem c5_hardware_return_witness :
    ∃ db2 a2 ev, return_asset c5wDB 1 none none none (some "DAMAGED") 9 = .ok (db2, a2)
      ∧ a2.assigned_to_user_id = none
      ∧ a2.status = AssetStatus.IN_STOCK
      ∧ db2.events = c5wDB.events ++ [ev]
      ∧ ev.event_type = AssetEventType.RETURN
      ∧ ev.from_user_id = c5wAsset.assigned_to_user_id
      ∧ (c5wAsset.assigned_to_user_id = none → (some "DAMAGED" : Option String) = none →
          (none : Option String) = none → ev.notes = some "Returned")
      ∧ ((some "DAMAGED" : Option String) = none → a2.condition = c5wAsset.condition)
      ∧ (∀ c cc, (some "DAMAGED" : Option String) = some c → parseCondition c = some cc →
          a2.condition = cc ∧ ((none : Option String) = none →
            ev.notes = some (hwReturnBaseNote c5wDB c5wAsset ++ " (Condition: " ++ c ++ ")"))) :=
  c5_hardware_return c5wDB 1 9 none (some "DAMAGED") none none c5wAsset rfl rfl

/-- Claim C10 (amended): a hardware return with a condition string that
does not parse as an `AssetCondition` never raises an error and leaves
the stored condition unchanged; a non-empty such string is still
appended verbatim to the RETURN notes as `(Condition: <value>)` —  so
the audit note can disagree with the stored condition — while the
empty string is ignored entirely (no note suffix either). -/
theorem c10_invalid_condition_amended
    (db : DB) (aid now : Nat) (actor uid : Option Nat) (asset : Asset) (c : String)
    (ha : dbGetAsset db aid = some asset)
    (hty : asset.asset_type = AssetType.HARDWARE)
    (hc : parseCondition c = none) :
    ∃ db2 a2 ev, return_asset db aid none actor uid (some c) now = .ok (db2, a2)
      ∧ a2.condition = asset.condition
      ∧ a2.assigned_to_user_id = none
      ∧ a2.status = AssetStatus.IN_STOCK
      ∧ db2.events = db.events ++ [ev]
      ∧ ev.event_type = AssetEventType.RETURN
      ∧ ev.notes = some (if c = "" then hwReturnBaseNote db asset
          else hwReturnBaseNote db asset ++ " (Condition: " ++ c ++ ")") := by
  simp only [return_asset, ha]
  simp only [hty, reduceIte]
  refine ⟨_, _, _, rfl, ?_, rfl, rfl, rfl, rfl, ?_⟩
  · by_cases hce : c = ""
    · simp [hce]
    · simp only [if_pos hce, hc]
  · by_cases hce : c = ""
    · simp [strTruthyOpt, hce]
    · simp [strTruthyOpt, hce]

/-- Witness for C10 (amended): condition string `BROKEN` on the
hardware asset assigned to Alice is ignored in the stored condition
but appended to the note. -/
theorem c10_invalid_condition_amended_witness :
    ∃ db2 a2 ev, return_asset c10wDB 1 none none none (some "BROKEN") 9 = .ok (db2, a2)
      ∧ a2.condition = c10wAsset.condition
      ∧ a2.assigned_to_user_id = none
      ∧ a2.status = AssetStatus.IN_STOCK
      ∧ db2.events = c10wDB.events ++ [ev]
      ∧ ev.event_type = AssetEventType.RETURN
      ∧ ev.notes = some (if "BROKEN" = "" then hwReturnBaseNote c10wDB c10wAsset
          else hwReturnBaseNote c10wDB c10wAsset ++ " (Condition: " ++ "BROKEN" ++ ")") :=
  c10_invalid_condition_amended c10wDB 1 9 none none c10wAsset "BROKEN" rfl rfl rfl

/-- Claim C4 (amended): whenever `create_asset` succeeds, the created
asset has `assigned_to_user_id` null, a HARDWARE asset has
`subscription` nulled, and a SOFTWARE asset has `category` and
`manufacturer` nulled, regardless of what the caller supplied. (The
seat fields are NOT nulled for hardware — see the counterexample.) -/
theorem c4_create_nulls_amended
    (db : DB) (p : AssetCreate) (actor org : Option Nat) (now : Nat)
    (db2 : DB) (a : Asset)
    (h : create_asset db p actor org now = .ok (db2, a)) :
    a.assigned_to_user_id = none
    ∧ (p.asset_type = AssetType.HARDWARE → a.subscription = none)
    ∧ (p.asset_type = AssetType.SOFTWARE → a.category = none ∧ a.manufacturer = none) := by
  simp only [create_asset] at h
  split at h
  · exact Except.noConfusion h
  split at h
  · exact Except.noConfusion h
  split at h
  · exact Except.noConfusion h
  split at h
  · exact Except.noConfusion h
  injection h with hpair
  injection hpair with hdb ha2
  subst ha2
  refine ⟨rfl, ?_, ?_⟩
  · intro hhw
    simp [hhw]
  · intro hsw
    simp [hsw]

/-- Witness for C4 (amended): the concrete hardware create of the
counterexample still nulls `subscription` and the assignee. -/
theorem c4_create_nulls_amended_witness :
    c4OutAsset.assigned_to_user_id = none
    ∧ (c4Payload.asset_type = AssetType.HARDWARE → c4OutAsset.subscription = none)
    ∧ (c4Payload.asset_type = AssetType.SOFTWARE →
        c4OutAsset.category = none ∧ c4OutAsset.manufacturer = none) :=
  c4_create_nulls_amended emptyDB c4Payload none none 0 c4OutDB c4OutAsset (by decide)

/-! ### C8 -/

/-- Claim C8 counterexample: an asset with tag T1 exists in
organization 1; creating another asset with tag T1 in organization 2
passes the organization-scoped application check but is rejected at
commit by the database's global unique index on `asset_tag`
(`models.py` line 71, migration `001_initial_schema.py` line 110), so
the cross-organization create does not succeed. -/
theorem c8_cross_org_counterexample :
    c8Existing.organization_id = some 1
    ∧ create_asset c8DB c8Payload none (some 2) 0 =
        .error (.integrity "UNIQUE constraint failed: assets.asset_tag")
    ∧ ∀ r, create_asset c8DB c8Payload none (some 2) 0 ≠ .ok r := by
  have hres : create_asset c8DB c8Payload none (some 2) 0 =
      .error (.integrity "UNIQUE constraint failed: assets.asset_tag") := by decide
  refine ⟨rfl, hres, ?_⟩
  intro r h
  rw [hres] at h
  simp at h

/-- Claim C8 (amended): `create_asset` fails with a DuplicateKeyError
when an asset with the same `asset_tag` — or, when the payload serial
is truthy (non-null and non-empty), the same `serial_number` — already
exists within the same organization scope (the no-organization scope
being its own scope); a duplicate `asset_tag` in a DIFFERENT
organization scope passes both application-level checks but is still
rejected at commit by the database's global unique index on
`asset_tag`, as a generic integrity error rather than a
DuplicateKeyError. -/
theorem c8_create_duplicates_amended
    (db : DB) (p : AssetCreate) (actor org : Option Nat) (now : Nat) :
    (db.assets.any (fun a => a.asset_tag == p.asset_tag && a.organization_id == org) = true →
      create_asset db p actor org now = .error (.duplicateKey "Asset tag already exists"))
    ∧ (db.assets.any (fun a => a.asset_tag == p.asset_tag && a.organization_id == org) = false →
      (strTruthyOpt p.serial_number &&
        db.assets.any (fun a => a.serial_number == p.serial_number &&
          a.organization_id == org)) = true →
      create_asset db p actor org now = .error (.duplicateKey "Serial number already exists"))
    ∧ (db.assets.any (fun a => a.asset_tag == p.asset_tag && a.organization_id == org) = false →
      (strTruthyOpt p.serial_number &&
        db.assets.any (fun a => a.serial_number == p.serial_number &&
          a.organization_id == org)) = false →
      db.assets.any (fun a => a.asset_tag == p.asset_tag) = true →
      create_asset db p actor org now =
        .error (.integrity "UNIQUE constraint failed: assets.asset_tag")) := by
  refine ⟨?_, ?_, ?_⟩
  · intro h1
    simp only [create_asset, h1, reduceIte]
  · intro h1 h2
    simp [create_asset, h1, h2]
  · intro h1 h2 h3
    simp [create_asset, h1, h2, h3]

/-- Witness for C8 (amended): a same-scope duplicate of tag T1 raises
the DuplicateKeyError, while the cross-organization duplicate is
rejected by the global unique index. -/
theorem c8_create_duplicates_amended_witness :
    create_asset c8DB c8Payload none (some 1) 0 =
      .error (.duplicateKey "Asset tag already exists")
    ∧ create_asset c8DB c8Payload none (some 2) 0 =
      .error (.integrity "UNIQUE constraint failed: assets.asset_tag") :=
  ⟨(c8_create_duplicates_amended c8DB c8Payload none (some 1) 0).1 (by decide),
   (c8_create_duplicates_amended c8DB c8Payload none (some 2) 0).2.2
     (by decide) (by decide) (by decide)⟩

/-! ### C4 -/

/-- Claim C4 counterexample: (a) a schema-valid HARDWARE creation
payload carrying `seats_total`/`seats_used` produces a HARDWARE asset
with both seat fields populated — `create_asset` copies the seat
counters unconditionally instead of nulling them for hardware; (b) an
`update_asset` payload can write a `category` onto a SOFTWARE asset. -/
theorem c4_kind_exclusivity_counterexample :
    validate_hw_sw_fields c4Payload = true
    ∧ (exOk? (create_asset emptyDB c4Payload none none 0)).map
        (fun r => (r.2.asset_type, r.2.seats_total, r.2.seats_used)) =
      some (AssetType.HARDWARE, some 5, some 3)
    ∧ ((update_asset c4swDB c4swAsset c4UpdPayload none 1).2.asset_type,
        (update_asset c4swDB c4swAsset c4UpdPayload none 1).2.category) =
      (AssetType.SOFTWARE, some "Sneaky") := by
  refine ⟨rfl, by decide, by decide⟩

/-! ### C6 -/

/-- Claim C6: an `update_asset` whose payload changes `location_id`
emits exactly one MOVE event — carrying `from_location_id` (the old
value), `to_location_id` (the new value) and the resolved location
names in the note — and the location change is never folded into an
UPDATE event: all other changed fields batch into a single UPDATE
event with semicolon-joined entries, absent exactly when no other
field changed, so a location change alone yields one MOVE and no
UPDATE. -/
theorem c6_update_move
    (db : DB) (a : Asset) (p : AssetUpdate) (actor : Option Nat) (now : Nat)
    (nl : Option Nat)
    (hp : p.location_id = some nl)
    (hne : nl ≠ a.location_id) :
    (update_asset db a p actor now).1.events =
      db.events
      ++ [{ asset_id := a.id, event_type := AssetEventType.MOVE, from_user_id := none,
            to_user_id := none, from_location_id := a.location_id, to_location_id := nl,
            actor_user_id := actor,
            notes := some ("Moved from " ++ locationName db a.location_id ++ " to " ++
              locationName db nl) }]
      ++ (if fieldDiffs p a = [] then []
          else [{ asset_id := a.id, event_type := AssetEventType.UPDATE, from_user_id := none,
                  to_user_id := none, from_location_id := none, to_location_id := none,
                  actor_user_id := actor,
                  notes := some (String.intercalate "; " (fieldDiffs p a)) }])
    ∧ (update_asset db a p actor now).2.location_id = nl
    ∧ ((update_asset db a p actor now).1.events.countP
          (fun e => e.event_type == AssetEventType.MOVE) =
        db.events.countP (fun e => e.event_type == AssetEventType.MOVE) + 1)
    ∧ ((update_asset db a p actor now).1.events.countP
          (fun e => e.event_type == AssetEventType.UPDATE) =
        db.events.countP (fun e => e.event_type == AssetEventType.UPDATE) +
          (if fieldDiffs p a = [] then 0 else 1)) := by
  have hloc : locDiff p a = some (a.location_id, nl) := by
    simp [locDiff, hp, hne]
  have hcond : ¬(fieldDiffs p a = [] ∧ locDiff p a = none) := by
    simp [hloc]
  have hev : (update_asset db a p actor now).1.events =
      db.events
      ++ [{ asset_id := a.id, event_type := AssetEventType.MOVE, from_user_id := none,
            to_user_id := none, from_location_id := a.location_id, to_location_id := nl,
            actor_user_id := actor,
            notes := some ("Moved from " ++ locationName db a.location_id ++ " to " ++
              locationName db nl) }]
      ++ (if fieldDiffs p a = [] then []
          else [{ asset_id := a.id, event_type := AssetEventType.UPDATE, from_user_id := none,
                  to_user_id := none, from_location_id := none, to_location_id := none,
                  actor_user_id := actor,
                  notes := some (String.intercalate "; " (fieldDiffs p a)) }]) := by
    simp only [update_asset]
    rw [if_neg hcond]
    simp only [hloc]
  refine ⟨hev, ?_, ?_, ?_⟩
  · simp only [update_asset]
    rw [if_neg hcond]
    simp [applyPayload, hp]
  · rw [hev]
    simp only [List.countP_append]
    split <;> simp [List.countP_cons, List.countP_nil]
  · rw [hev]
    simp only [List.countP_append]
    split <;> simp [List.countP_cons, List.countP_nil]

/-- Witness for C6: moving the asset from HQ (location 1) to Lab
(location 2) with nothing else in the payload. -/
theorem c6_update_move_witness :
    (update_asset c6DB c6Asset c6Payload none 9).1.events =
      c6DB.events
      ++ [{ asset_id := c6Asset.id, event_type := AssetEventType.MOVE, from_user_id := none,
            to_user_id := none, from_location_id := c6Asset.location_id,
            to_location_id := some 2, actor_user_id := none,
            notes := some ("Moved from " ++ locationName c6DB c6Asset.location_id ++ " to " ++
              locationName c6DB (some 2)) }]
      ++ (if fieldDiffs c6Payload c6Asset = [] then []
          else [{ asset_id := c6Asset.id, event_type := AssetEventType.UPDATE,
                  from_user_id := none, to_user_id := none, from_location_id := none,
                  to_location_id := none, actor_user_id := none,
                  notes := some (String.intercalate "; " (fieldDiffs c6Payload c6Asset)) }])
    ∧ (update_asset c6DB c6Asset c6Payload none 9).2.location_id = some 2
    ∧ ((update_asset c6DB c6Asset c6Payload none 9).1.events.countP
          (fun e => e.event_type == AssetEventType.MOVE) =
        c6DB.events.countP (fun e => e.event_type == AssetEventType.MOVE) + 1)
    ∧ ((update_asset c6DB c6Asset c6Payload none 9).1.events.countP
          (fun e => e.event_type == AssetEventType.UPDATE) =
        c6DB.events.countP (fun e => e.event_type == AssetEventType.UPDATE) +
          (if fieldDiffs c6Payload c6Asset = [] then 0 else 1)) :=
  c6_update_move c6DB c6Asset c6Payload none 9 (some 2) rfl (by decide)

/-! ### C7 -/

/-- Claim C7: an `update_asset` whose supplied fields all equal the
asset's current values emits no event of any kind and returns the
store and the asset — every field, `updated_at` included — unchanged;
fields absent from the partial payload are never touched
(`NoopPayload` is vacuously true for absent fields). -/
theorem c7_update_noop
    (db : DB) (a : Asset) (p : AssetUpdate) (actor : Option Nat) (now : Nat)
    (h : NoopPayload p a) :
    update_asset db a p actor now = (db, a) := by
  obtain ⟨h1, h2, h3, h4, h5, h6, h7, h8, h9, h10, h11, h12, h13, h14, h15, h16, h17, h18⟩ := h
  have hc : fieldDiffs p a = [] := by
    simp only [fieldDiffs,
      diffOf_eq_nil _ _ h1, diffOf_eq_nil _ _ h2, diffOf_eq_nil _ _ h3,
      diffOf_eq_nil _ _ h4, diffOf_eq_nil _ _ h5, diffOf_eq_nil _ _ h6,
      diffOf_eq_nil _ _ h7, diffOf_eq_nil _ _ h8, diffOf_eq_nil _ _ h9,
      diffOf_eq_nil _ _ h10, diffOf_eq_nil _ _ h11, diffOf_eq_nil _ _ h12,
      diffOf_eq_nil _ _ h13, diffOf_eq_nil _ _ h14, diffOf_eq_nil _ _ h15,
      diffOf_eq_nil _ _ h17, diffOf_eq_nil _ _ h18, List.append_nil]
  have hl : locDiff p a = none := locDiff_eq_none h16
  simp [update_asset, hc, hl]

/-- Witness for C7: re-supplying the current status and condition of
the asset changes nothing: no event, identical store and asset. -/
theorem c7_update_noop_witness :
    update_asset c6DB c6Asset c7Payload none 9 = (c6DB, c6Asset) :=
  c7_update_noop c6DB c6Asset c7Payload none 9
    ⟨rfl, rfl, rfl, rfl, rfl, rfl, rfl, rfl, rfl, rfl, rfl, rfl, rfl, rfl, rfl, rfl, rfl, rfl⟩

/-! ### C9 -/

/-- Claim C9: in the audit aggregator's status counts
(`auditStatusCounts`, mirroring `get_audit_summary`), a SOFTWARE asset
that is not RETIRED counts as ASSIGNED exactly when `seats_total` is
non-null and the coalesced `seats_used` has reached it, and counts as
IN_STOCK exactly when `seats_total` is null (unlimited) or the
coalesced `seats_used` is below it; the RETIRED count is by stored
status alone; a HARDWARE asset is counted by its stored status. -/
theorem c9_effective_status (a : Asset) :
    (a.asset_type = AssetType.SOFTWARE → a.status ≠ AssetStatus.RETIRED →
      ((countedAssigned a = true ↔
          ∃ t, a.seats_total = some t ∧ t ≤ coalesceSeatsUsed a)
        ∧ (countedInStock a = true ↔
          (a.seats_total = none ∨ ∃ t, a.seats_total = some t ∧ coalesceSeatsUsed a < t))))
    ∧ (countedRetired a = true ↔ a.status = AssetStatus.RETIRED)
    ∧ (a.asset_type = AssetType.HARDWARE →
      ((countedAssigned a = true ↔ a.status = AssetStatus.ASSIGNED)
        ∧ (countedInStock a = true ↔ a.status = AssetStatus.IN_STOCK))) := by
  refine ⟨?_, ?_, ?_⟩
  · intro hty hnr
    constructor
    · cases ht : a.seats_total <;>
        simp [countedAssigned, hty, hnr, ht, coalesceSeatsUsed]
    · cases ht : a.seats_total <;>
        simp [countedInStock, hty, hnr, ht, coalesceSeatsUsed]
  · simp [countedRetired]
  · intro hty
    constructor
    · simp [countedAssigned, hty]
    · simp [countedInStock, hty]

/-- Witness for C9: a software asset with 3 of 2 seats in use and a
non-RETIRED stored status counts as ASSIGNED. -/
theorem c9_effective_status_witness :
    countedAssigned c9wAsset = true :=
  ((c9_effective_status c9wAsset).1 rfl (by decide)).1.mpr ⟨2, rfl, by decide⟩

end AssetMgmt
